import Mathlib

/-!
Verification of the LS-8 emulator in `src/ls8/cpu.py`.

The emulator is embedded shallowly and faithfully to Python semantics:

* Python integers are unbounded, so register, memory, flag and program-counter
  values are modelled as `Int` (the reference performs no 8-bit masking).
* Python list indexing `l[i]` accepts `-len l ≤ i < len l` (negative indices
  count from the end) and raises `IndexError` otherwise; `pyIdx`, `pyGet` and
  `pySet` model this exactly.
* A raised exception aborts the run; fallible operations return
  `Except PyErr _`, where `PyErr` distinguishes Python's `IndexError` from the
  emulator's own `raise Exception("Unsupported ALU operation")`.
* `CPU.__init__` is `initState`, `CPU.alu` is `alu`, and the body of the
  `while` loop of `CPU.run` is `step` (one fetch-decode-execute cycle);
  `runFuel` iterates the loop with explicit fuel.  `print` output from PRN is
  collected in the `out` field.
-/

set_option maxRecDepth 100000

namespace LS8

/-- Errors a cycle can raise: Python `IndexError` from list indexing, or the
`Exception("Unsupported ALU operation")` raised by `CPU.alu`. -/
inductive PyErr where
  | indexError
  | unsupported
deriving DecidableEq

/-- Resolve a Python list index for a list of length `n`: indices in `[0, n)`
are used as is, indices in `[-n, 0)` count from the end, anything else raises
`IndexError` (modelled by `none`). -/
def pyIdx (n : Nat) (i : Int) : Option Nat :=
  if 0 ≤ i ∧ i < (n : Int) then some i.toNat
  else if -(n : Int) ≤ i ∧ i < 0 then some ((n : Int) + i).toNat
  else none

/-- Python list read `l[i]`. -/
def pyGet (l : List Int) (i : Int) : Option Int :=
  match pyIdx l.length i with
  | none => none
  | some j => some (l.getD j 0)

/-- Python list write `l[i] = v`. -/
def pySet (l : List Int) (i : Int) (v : Int) : Option (List Int) :=
  match pyIdx l.length i with
  | none => none
  | some j => some (l.set j v)

/-- Python arithmetic right shift `x >> k` (floor division by `2 ^ k`). -/
def pyShr (x : Int) (k : Nat) : Int :=
  Int.fdiv x (2 ^ k)

/-- Python bitwise complement `~x = -(x + 1)`. -/
def pyNot (x : Int) : Int := -(x + 1)

/- Opcode constants from the top of `cpu.py`. -/

def HLT  : Int := 0b00000001
def LDI  : Int := 0b10000010
def PRN  : Int := 0b01000111
def MUL  : Int := 0b10100010
def PUSH : Int := 0b01000101
def POP  : Int := 0b01000110
def CALL : Int := 0b01010000
def RET  : Int := 0b00010001
def ADD  : Int := 0b10100000
def CMP  : Int := 0b10100111
def JMP  : Int := 0b01010100
def JEQ  : Int := 0b01010101
def JNE  : Int := 0b01010110
def INC  : Int := 0b01100101
def DEC  : Int := 0b01100110
def PRA  : Int := 0b01001000
def AND  : Int := 0b10101000
def OR   : Int := 0b10101010
def XOR  : Int := 0b10101011
def NOT  : Int := 0b01101001
def SHL  : Int := 0b10101100
def SHR  : Int := 0b10101101
def MOD  : Int := 0b10100100

/-- R5 is reserved as the interrupt mask. -/
def IM : Int := 5
/-- R6 is reserved as the interrupt status. -/
def IS : Int := 6
/-- R7 is reserved as the stack pointer. -/
def SP : Int := 7

/- The ALU operation-selector strings passed to `CPU.alu`. -/

def opADD : String := "ADD"
def opMUL : String := "MUL"
def opCMP : String := "CMP"
def opINC : String := "INC"
def opDEC : String := "DEC"
def opAND : String := "AND"
def opOR  : String := "OR"
def opNOT : String := "NOT"

/-- The machine state of one `CPU` instance: `ram`, `reg`, `fl`, `pc`,
`halted`, plus the stream of values printed by PRN. -/
structure CPUState where
  ram : List Int
  reg : List Int
  fl : Int
  pc : Int
  halted : Bool
  out : List Int
deriving DecidableEq

/-- Embeds `CPU.__init__`: 256 zeroed ram cells, 8 zeroed registers except
`reg[SP] = 0xF4`, zero flags, zero pc, not halted. -/
def initState : CPUState :=
  { ram := List.replicate 256 0
    reg := (List.replicate 8 0).set 7 0xF4
    fl := 0
    pc := 0
    halted := false
    out := [] }

/-- Embeds `CPU.ram_read`. -/
def ram_read (s : CPUState) (mar : Int) : Option Int :=
  pyGet s.ram mar

/-- A binary ALU operation `self.reg[reg_a] = f(self.reg[reg_a], self.reg[reg_b])`
(reads both registers, then writes the first). -/
def binop (f : Int → Int → Int) (reg_a reg_b : Int) (s : CPUState) :
    Except PyErr CPUState :=
  match pyGet s.reg reg_a with
  | none => .error .indexError
  | some va =>
    match pyGet s.reg reg_b with
    | none => .error .indexError
    | some vb =>
      match pySet s.reg reg_a (f va vb) with
      | none => .error .indexError
      | some r => .ok { s with reg := r }

/-- A unary ALU operation `self.reg[reg_a] = f(self.reg[reg_a])`. -/
def unop (f : Int → Int) (reg_a : Int) (s : CPUState) : Except PyErr CPUState :=
  match pyGet s.reg reg_a with
  | none => .error .indexError
  | some va =>
    match pySet s.reg reg_a (f va) with
    | none => .error .indexError
    | some r => .ok { s with reg := r }

/-- The CMP branch of `CPU.alu`: compares `reg[reg_a]` with `reg[reg_b]` and
sets `fl` to `0b100`, `0b010` or `0b001`. -/
def cmpop (reg_a reg_b : Int) (s : CPUState) : Except PyErr CPUState :=
  match pyGet s.reg reg_a with
  | none => .error .indexError
  | some va =>
    match pyGet s.reg reg_b with
    | none => .error .indexError
    | some vb =>
      .ok { s with fl := if va < vb then 0b00000100
                         else if va > vb then 0b00000010
                         else 0b00000001 }

/-- Embeds `CPU.alu`: dispatch on the operation-selector string; an unrecognized
selector raises `Exception("Unsupported ALU operation")`. -/
def alu (op : String) (reg_a reg_b : Int) (s : CPUState) : Except PyErr CPUState :=
  if op = opADD then binop (fun x y => x + y) reg_a reg_b s
  else if op = opMUL then binop (fun x y => x * y) reg_a reg_b s
  else if op = opCMP then cmpop reg_a reg_b s
  else if op = opINC then unop (fun x => x + 1) reg_a s
  else if op = opDEC then unop (fun x => x - 1) reg_a s
  else if op = opAND then binop Int.land reg_a reg_b s
  else if op = opOR then binop Int.lor reg_a reg_b s
  else if op = opNOT then unop pyNot reg_a s
  else .error .unsupported

/-- The LDI handler: `reg[operand_a] = operand_b`, then advance. -/
def hLDI (s : CPUState) (oc oa ob : Int) : Except PyErr CPUState :=
  match pySet s.reg oa ob with
  | none => .error .indexError
  | some r => .ok { s with reg := r, pc := s.pc + oc + 1 }

/-- The PRN handler: print `reg[operand_a]`, then advance. -/
def hPRN (s : CPUState) (oc oa : Int) : Except PyErr CPUState :=
  match pyGet s.reg oa with
  | none => .error .indexError
  | some v => .ok { s with out := s.out ++ [v], pc := s.pc + oc + 1 }

/-- The PUSH handler: read `reg[operand_a]`, decrement `reg[SP]`, store the
value at `ram[reg[SP]]`, then advance. -/
def hPUSH (s : CPUState) (oc oa : Int) : Except PyErr CPUState :=
  match pyGet s.reg oa with
  | none => .error .indexError
  | some val =>
    match pyGet s.reg SP with
    | none => .error .indexError
    | some sp =>
      match pySet s.reg SP (sp - 1) with
      | none => .error .indexError
      | some reg1 =>
        match pyGet reg1 SP with
        | none => .error .indexError
        | some sp1 =>
          match pySet s.ram sp1 val with
          | none => .error .indexError
          | some ram1 =>
            .ok { s with reg := reg1, ram := ram1, pc := s.pc + oc + 1 }

/-- The POP handler: read `ram[reg[SP]]` into `reg[operand_a]`, increment
`reg[SP]` (re-reading it after the register write, as Python does), then
advance. -/
def hPOP (s : CPUState) (oc oa : Int) : Except PyErr CPUState :=
  match pyGet s.reg SP with
  | none => .error .indexError
  | some sp =>
    match pyGet s.ram sp with
    | none => .error .indexError
    | some val =>
      match pySet s.reg oa val with
      | none => .error .indexError
      | some reg1 =>
        match pyGet reg1 SP with
        | none => .error .indexError
        | some sp1 =>
          match pySet reg1 SP (sp1 + 1) with
          | none => .error .indexError
          | some reg2 => .ok { s with reg := reg2, pc := s.pc + oc + 1 }

/-- The CALL handler: decrement `reg[SP]`, write the return address `pc + 2`
to `ram[reg[SP]]`, and jump to `reg[operand_a]`. -/
def hCALL (s : CPUState) (oa : Int) : Except PyErr CPUState :=
  match pyGet s.reg SP with
  | none => .error .indexError
  | some sp =>
    match pySet s.reg SP (sp - 1) with
    | none => .error .indexError
    | some reg1 =>
      match pyGet reg1 SP with
      | none => .error .indexError
      | some sp1 =>
        match pySet s.ram sp1 (s.pc + 2) with
        | none => .error .indexError
        | some ram1 =>
          match pyGet reg1 oa with
          | none => .error .indexError
          | some t => .ok { s with reg := reg1, ram := ram1, pc := t }

/-- The RET handler: pop the return address from `ram[reg[SP]]` into `pc`,
increment `reg[SP]`. -/
def hRET (s : CPUState) : Except PyErr CPUState :=
  match pyGet s.reg SP with
  | none => .error .indexError
  | some sp =>
    match pyGet s.ram sp with
    | none => .error .indexError
    | some val =>
      match pySet s.reg SP (sp + 1) with
      | none => .error .indexError
      | some reg1 => .ok { s with reg := reg1, pc := val }

/-- The JMP handler: `pc = reg[operand_a]`. -/
def hJMP (s : CPUState) (oa : Int) : Except PyErr CPUState :=
  match pyGet s.reg oa with
  | none => .error .indexError
  | some t => .ok { s with pc := t }

/-- The JEQ handler: jump to `reg[operand_a]` when `fl == 1`, else advance. -/
def hJEQ (s : CPUState) (oc oa : Int) : Except PyErr CPUState :=
  if s.fl = 1 then
    match pyGet s.reg oa with
    | none => .error .indexError
    | some t => .ok { s with pc := t }
  else .ok { s with pc := s.pc + oc + 1 }

/-- The JNE handler: jump to `reg[operand_a]` when `fl != 1`, else advance. -/
def hJNE (s : CPUState) (oc oa : Int) : Except PyErr CPUState :=
  if s.fl ≠ 1 then
    match pyGet s.reg oa with
    | none => .error .indexError
    | some t => .ok { s with pc := t }
  else .ok { s with pc := s.pc + oc + 1 }

/-- A run-loop branch that delegates to `CPU.alu` and then advances. -/
def hALU (op : String) (s : CPUState) (oc oa ob : Int) : Except PyErr CPUState :=
  match alu op oa ob s with
  | .error e => .error e
  | .ok s1 => .ok { s1 with pc := s1.pc + oc + 1 }

/-- The dispatch chain of `CPU.run`, after the instruction byte and the two
operand bytes have been fetched.  An instruction byte matching none of the
`elif` arms falls through and leaves the state untouched. -/
def stepBody (s : CPUState) (ir oa ob : Int) : Except PyErr CPUState :=
  let operand_count := pyShr ir 6
  if ir = HLT then .ok { s with halted := true }
  else if ir = LDI then hLDI s operand_count oa ob
  else if ir = PRN then hPRN s operand_count oa
  else if ir = MUL then hALU opMUL s operand_count oa ob
  else if ir = PUSH then hPUSH s operand_count oa
  else if ir = POP then hPOP s operand_count oa
  else if ir = CALL then hCALL s oa
  else if ir = RET then hRET s
  else if ir = ADD then hALU opADD s operand_count oa ob
  else if ir = CMP then hALU opCMP s operand_count oa ob
  else if ir = JMP then hJMP s oa
  else if ir = JEQ then hJEQ s operand_count oa
  else if ir = JNE then hJNE s operand_count oa
  else if ir = AND then hALU opAND s operand_count oa ob
  else if ir = OR then hALU opOR s operand_count oa ob
  else .ok s

/-- One iteration of the `while not self.halted` loop of `CPU.run`: fetch the
instruction byte and both operand bytes (the loop always reads `pc + 1` and
`pc + 2`), then dispatch. -/
def step (s : CPUState) : Except PyErr CPUState :=
  match ram_read s s.pc with
  | none => .error .indexError
  | some ir =>
    match ram_read s (s.pc + 1) with
    | none => .error .indexError
    | some operand_a =>
      match ram_read s (s.pc + 2) with
      | none => .error .indexError
      | some operand_b => stepBody s ir operand_a operand_b

/-- Embeds `CPU.run` with explicit fuel: run cycles until the halted flag is set or
the fuel runs out (the returned state is then the still-running state). -/
def runFuel : Nat → CPUState → Except PyErr CPUState
  | 0, s => .ok s
  | Nat.succ n, s =>
    if s.halted then .ok s
    else
      match step s with
      | .error e => .error e
      | .ok s1 => runFuel n s1

/-- The fifteen opcodes the run loop dispatches on. -/
def dispatchedOps : List Int :=
  [HLT, LDI, PRN, MUL, PUSH, POP, CALL, RET, ADD, CMP, JMP, JEQ, JNE, AND, OR]

/-- The eight operation selectors `CPU.alu` recognizes. -/
def supportedOps : List String :=
  [opADD, opMUL, opCMP, opINC, opDEC, opAND, opOR, opNOT]

/-- A selector string that `CPU.alu` does not recognize (the XOR arm of the
reference is commented out). -/
def opXOR : String := "XOR"

/-! ### Concrete machine states used as test inputs

The ram produced by `CPU.load` for a given parsed program: the bytes are
stored at successive addresses starting at 0 in the zero-filled ram. -/

def progRam (prog : List Int) : List Int :=
  prog ++ List.replicate (256 - prog.length) 0

/-- A machine about to execute `LDI 0 8`. -/
def c1w : CPUState := { initState with ram := progRam [LDI, 0, 8] }

/-- The machine after the `LDI 0 8` cycle. -/
def c1wRes : CPUState := { c1w with reg := c1w.reg.set 0 8, pc := 3 }

/-- A machine about to execute `PUSH 7` then `POP 7` (the stack-pointer
register itself). -/
def c3cex : CPUState := { initState with ram := progRam [PUSH, 7, POP, 7] }

/-- State `c3cex` after the `PUSH 7` cycle. -/
def c3cex1 : CPUState :=
  { c3cex with reg := c3cex.reg.set 7 243, ram := c3cex.ram.set 243 244, pc := 2 }

/-- State `c3cex1` after the `POP 7` cycle: `reg[7]` ends at 245, not 244. -/
def c3cex2 : CPUState :=
  { c3cex1 with reg := (c3cex1.reg.set 7 244).set 7 245, pc := 4 }

/-- A machine about to execute `PUSH 0` then `POP 0`. -/
def c3w : CPUState := { initState with ram := progRam [PUSH, 0, POP, 0] }

/-- State `c3w` after the `PUSH 0` cycle. -/
def c3w1 : CPUState :=
  { c3w with reg := c3w.reg.set 7 243, ram := c3w.ram.set 243 0, pc := 2 }

/-- State `c3w1` after the `POP 0` cycle. -/
def c3w2 : CPUState :=
  { c3w1 with reg := (c3w1.reg.set 0 0).set 7 244, pc := 4 }

/-- A machine with `reg[0] = 3` about to execute `CALL 0`, whose target
address 3 holds `RET`. -/
def c4w : CPUState :=
  { initState with ram := progRam [CALL, 0, 0, RET]
                   reg := [3, 0, 0, 0, 0, 0, 0, 0xF4] }

/-- State `c4w` after the `CALL 0` cycle: return address 2 pushed, pc at 3. -/
def c4w1 : CPUState :=
  { c4w with reg := c4w.reg.set 7 243, ram := c4w.ram.set 243 2, pc := 3 }

/-- State `c4w1` after the `RET` cycle: pc back at 2, stack pointer restored. -/
def c4w3 : CPUState := { c4w1 with reg := c4w1.reg.set 7 244, pc := 2 }

/-- A machine with the equal flag set about to execute `JEQ 0`, `reg[0] = 99`. -/
def c5jeqState : CPUState :=
  { initState with ram := progRam [JEQ, 0]
                   reg := [99, 0, 0, 0, 0, 0, 0, 0xF4]
                   fl := 1 }

/-- State `c5jeqState` after the taken `JEQ`. -/
def c5jeqRes : CPUState := { c5jeqState with pc := 99 }

/-- A machine in the initial all-zero flags state about to execute `JNE 0`,
`reg[0] = 99`. -/
def c5jneState : CPUState :=
  { initState with ram := progRam [JNE, 0]
                   reg := [99, 0, 0, 0, 0, 0, 0, 0xF4] }

/-- State `c5jneState` after the taken `JNE`. -/
def c5jneRes : CPUState := { c5jneState with pc := 99 }

/-- A machine with `reg[0] = 200` and `reg[1] = 100`. -/
def c6state : CPUState :=
  { initState with reg := [200, 100, 0, 0, 0, 0, 0, 0xF4] }

/-- State `c6state` after the ADD of registers 0 and 1: the sum 300 is stored unmasked. -/
def c6res : CPUState :=
  { c6state with reg := [300, 100, 0, 0, 0, 0, 0, 0xF4] }

/-- A machine whose memory holds only the HLT byte at address 0. -/
def c9state : CPUState := { initState with ram := progRam [HLT] }

/-- State `c9state` with the halted flag set — the state after the HLT cycle. -/
def c9halted : CPUState := { c9state with halted := true }

/-- A machine whose pc points at an undispatched opcode byte (255) at
address 254: the uniform two-byte operand lookahead reads `ram[256]`. -/
def c10bad : CPUState :=
  { initState with pc := 254, ram := (List.replicate 256 0).set 254 255 }

/-- A machine fetching the undispatched opcode byte 255 at address 0. -/
def c10w : CPUState := { initState with ram := progRam [255] }

/-! ### Basic lemmas about Python list indexing -/

lemma pyIdx_pos {n : Nat} {i : Int} (h0 : 0 ≤ i) (h : i < (n : Int)) :
    pyIdx n i = some i.toNat := by
  unfold pyIdx
  rw [if_pos ⟨h0, h⟩]

lemma pyIdx_some_lt {n j : Nat} {i : Int} (h : pyIdx n i = some j) : j < n := by
  unfold pyIdx at h
  split at h
  · injection h with h
    omega
  · split at h
    · injection h with h
      omega
    · exact Option.noConfusion h

lemma pyGet_pos {l : List Int} {i : Int} (h0 : 0 ≤ i) (h : i < (l.length : Int)) :
    pyGet l i = some (l.getD i.toNat 0) := by
  unfold pyGet
  rw [pyIdx_pos h0 h]

lemma pySet_pos {l : List Int} {i : Int} (v : Int) (h0 : 0 ≤ i)
    (h : i < (l.length : Int)) : pySet l i v = some (l.set i.toNat v) := by
  unfold pySet
  rw [pyIdx_pos h0 h]

lemma pySet_ok_length {l l' : List Int} {i v : Int} (h : pySet l i v = some l') :
    l'.length = l.length := by
  unfold pySet at h
  split at h
  · exact Option.noConfusion h
  · cases h
    simp

lemma pyGet_pySet_self {l l' : List Int} {i v : Int} (h : pySet l i v = some l') :
    pyGet l' i = some v := by
  unfold pySet at h
  split at h
  · exact Option.noConfusion h
  · rename_i j hj
    cases h
    unfold pyGet
    rw [List.length_set, hj]
    show some ((l.set j v).getD j 0) = some v
    rw [List.getD_eq_getElem?_getD, List.getElem?_set_self (pyIdx_some_lt hj)]
    rfl

lemma pyGet_pySet_ne {l l' : List Int} {i j v : Int} {ni nj : Nat}
    (h : pySet l i v = some l') (hi : pyIdx l.length i = some ni)
    (hj : pyIdx l.length j = some nj) (hne : ni ≠ nj) :
    pyGet l' j = pyGet l j := by
  unfold pySet at h
  rw [hi] at h
  cases h
  unfold pyGet
  rw [List.length_set, hj]
  show some ((l.set ni v).getD nj 0) = some (l.getD nj 0)
  rw [List.getD_eq_getElem?_getD, List.getElem?_set_ne hne, ← List.getD_eq_getElem?_getD]

/-! ### Frame lemmas for the ALU -/

lemma binop_frame {f : Int → Int → Int} {a b : Int} {s s1 : CPUState}
    (h : binop f a b s = .ok s1) :
    s1.pc = s.pc ∧ s1.ram = s.ram ∧ s1.halted = s.halted ∧ s1.out = s.out ∧
      s1.fl = s.fl := by
  unfold binop at h
  repeat' split at h
  all_goals first
    | exact Except.noConfusion h
    | (cases h; exact ⟨rfl, rfl, rfl, rfl, rfl⟩)

lemma unop_frame {f : Int → Int} {a : Int} {s s1 : CPUState}
    (h : unop f a s = .ok s1) :
    s1.pc = s.pc ∧ s1.ram = s.ram ∧ s1.halted = s.halted ∧ s1.out = s.out ∧
      s1.fl = s.fl := by
  unfold unop at h
  repeat' split at h
  all_goals first
    | exact Except.noConfusion h
    | (cases h; exact ⟨rfl, rfl, rfl, rfl, rfl⟩)

lemma cmpop_frame {a b : Int} {s s1 : CPUState} (h : cmpop a b s = .ok s1) :
    s1.pc = s.pc ∧ s1.ram = s.ram ∧ s1.halted = s.halted ∧ s1.out = s.out ∧
      s1.reg = s.reg := by
  unfold cmpop at h
  repeat' split at h
  all_goals first
    | exact Except.noConfusion h
    | (cases h; exact ⟨rfl, rfl, rfl, rfl, rfl⟩)

lemma alu_frame {op : String} {a b : Int} {s s1 : CPUState}
    (h : alu op a b s = .ok s1) :
    s1.pc = s.pc ∧ s1.ram = s.ram ∧ s1.halted = s.halted ∧ s1.out = s.out := by
  unfold alu at h
  repeat' split at h
  all_goals first
    | exact Except.noConfusion h
    | exact ⟨(binop_frame h).1, (binop_frame h).2.1, (binop_frame h).2.2.1,
        (binop_frame h).2.2.2.1⟩
    | exact ⟨(unop_frame h).1, (unop_frame h).2.1, (unop_frame h).2.2.1,
        (unop_frame h).2.2.2.1⟩
    | exact ⟨(cmpop_frame h).1, (cmpop_frame h).2.1, (cmpop_frame h).2.2.1,
        (cmpop_frame h).2.2.2.1⟩

/-! ### Reduction lemmas for the dispatch chain -/

lemma step_eq_stepBody {s : CPUState} {ir oa ob : Int}
    (hir : pyGet s.ram s.pc = some ir)
    (ha : pyGet s.ram (s.pc + 1) = some oa)
    (hb : pyGet s.ram (s.pc + 2) = some ob) :
    step s = stepBody s ir oa ob := by
  unfold step ram_read
  rw [hir, ha, hb]

lemma step_ok_fetch {s s' : CPUState} (h : step s = .ok s') :
    ∃ ir oa ob, pyGet s.ram s.pc = some ir ∧ pyGet s.ram (s.pc + 1) = some oa ∧
      pyGet s.ram (s.pc + 2) = some ob := by
  unfold step ram_read at h
  cases h1 : pyGet s.ram s.pc with
  | none => rw [h1] at h; exact Except.noConfusion h
  | some ir =>
    simp only [h1] at h
    cases h2 : pyGet s.ram (s.pc + 1) with
    | none => rw [h2] at h; exact Except.noConfusion h
    | some oa =>
      simp only [h2] at h
      cases h3 : pyGet s.ram (s.pc + 2) with
      | none => rw [h3] at h; exact Except.noConfusion h
      | some ob => exact ⟨ir, oa, ob, rfl, rfl, rfl⟩


lemma stepBody_HLT (s : CPUState) (oa ob : Int) :
    stepBody s HLT oa ob = .ok { s with halted := true } := rfl

lemma stepBody_LDI (s : CPUState) (oa ob : Int) :
    stepBody s LDI oa ob = hLDI s (pyShr LDI 6) oa ob := rfl

lemma stepBody_PRN (s : CPUState) (oa ob : Int) :
    stepBody s PRN oa ob = hPRN s (pyShr PRN 6) oa := rfl

lemma stepBody_MUL (s : CPUState) (oa ob : Int) :
    stepBody s MUL oa ob = hALU opMUL s (pyShr MUL 6) oa ob := rfl

lemma stepBody_PUSH (s : CPUState) (oa ob : Int) :
    stepBody s PUSH oa ob = hPUSH s (pyShr PUSH 6) oa := rfl

lemma stepBody_POP (s : CPUState) (oa ob : Int) :
    stepBody s POP oa ob = hPOP s (pyShr POP 6) oa := rfl

lemma stepBody_CALL (s : CPUState) (oa ob : Int) :
    stepBody s CALL oa ob = hCALL s oa := rfl

lemma stepBody_RET (s : CPUState) (oa ob : Int) :
    stepBody s RET oa ob = hRET s := rfl

lemma stepBody_ADD (s : CPUState) (oa ob : Int) :
    stepBody s ADD oa ob = hALU opADD s (pyShr ADD 6) oa ob := rfl

lemma stepBody_CMP (s : CPUState) (oa ob : Int) :
    stepBody s CMP oa ob = hALU opCMP s (pyShr CMP 6) oa ob := rfl

lemma stepBody_JMP (s : CPUState) (oa ob : Int) :
    stepBody s JMP oa ob = hJMP s oa := rfl

lemma stepBody_JEQ (s : CPUState) (oa ob : Int) :
    stepBody s JEQ oa ob = hJEQ s (pyShr JEQ 6) oa := rfl

lemma stepBody_JNE (s : CPUState) (oa ob : Int) :
    stepBody s JNE oa ob = hJNE s (pyShr JNE 6) oa := rfl

lemma stepBody_AND (s : CPUState) (oa ob : Int) :
    stepBody s AND oa ob = hALU opAND s (pyShr AND 6) oa ob := rfl

lemma stepBody_OR (s : CPUState) (oa ob : Int) :
    stepBody s OR oa ob = hALU opOR s (pyShr OR 6) oa ob := rfl

/-! ### Program-counter lemmas for the advancing handlers -/

lemma hLDI_pc {s s' : CPUState} {oc oa ob : Int} (h : hLDI s oc oa ob = .ok s') :
    s'.pc = s.pc + oc + 1 := by
  unfold hLDI at h
  repeat' split at h
  all_goals first
    | exact Except.noConfusion h
    | (cases h; rfl)

lemma hPRN_pc {s s' : CPUState} {oc oa : Int} (h : hPRN s oc oa = .ok s') :
    s'.pc = s.pc + oc + 1 := by
  unfold hPRN at h
  repeat' split at h
  all_goals first
    | exact Except.noConfusion h
    | (cases h; rfl)

lemma hPUSH_pc {s s' : CPUState} {oc oa : Int} (h : hPUSH s oc oa = .ok s') :
    s'.pc = s.pc + oc + 1 := by
  unfold hPUSH at h
  repeat' split at h
  all_goals first
    | exact Except.noConfusion h
    | (cases h; rfl)

lemma hPOP_pc {s s' : CPUState} {oc oa : Int} (h : hPOP s oc oa = .ok s') :
    s'.pc = s.pc + oc + 1 := by
  unfold hPOP at h
  repeat' split at h
  all_goals first
    | exact Except.noConfusion h
    | (cases h; rfl)

lemma hALU_pc {op : String} {s s' : CPUState} {oc oa ob : Int}
    (h : hALU op s oc oa ob = .ok s') : s'.pc = s.pc + oc + 1 := by
  unfold hALU at h
  split at h
  · exact Except.noConfusion h
  · rename_i s1 halu
    cases h
    simp [(alu_frame halu).1]

/-! ### Reduction lemmas for `alu` at each concrete selector string -/

lemma alu_opADD (a b : Int) (s : CPUState) :
    alu opADD a b s = binop (fun x y => x + y) a b s := rfl

lemma alu_opMUL (a b : Int) (s : CPUState) :
    alu opMUL a b s = binop (fun x y => x * y) a b s := rfl

lemma alu_opCMP (a b : Int) (s : CPUState) :
    alu opCMP a b s = cmpop a b s := rfl

lemma alu_opINC (a b : Int) (s : CPUState) :
    alu opINC a b s = unop (fun x => x + 1) a s := rfl

lemma alu_opDEC (a b : Int) (s : CPUState) :
    alu opDEC a b s = unop (fun x => x - 1) a s := rfl

lemma alu_opAND (a b : Int) (s : CPUState) :
    alu opAND a b s = binop Int.land a b s := rfl

lemma alu_opOR (a b : Int) (s : CPUState) :
    alu opOR a b s = binop Int.lor a b s := rfl

lemma alu_opNOT (a b : Int) (s : CPUState) :
    alu opNOT a b s = unop pyNot a s := rfl

lemma binop_ne_unsupported {f : Int → Int → Int} {a b : Int} {s : CPUState} :
    binop f a b s ≠ .error .unsupported := by
  unfold binop
  repeat' split
  all_goals intro h
  all_goals first
    | exact Except.noConfusion h
    | exact PyErr.noConfusion (Except.error.inj h)

lemma unop_ne_unsupported {f : Int → Int} {a : Int} {s : CPUState} :
    unop f a s ≠ .error .unsupported := by
  unfold unop
  repeat' split
  all_goals intro h
  all_goals first
    | exact Except.noConfusion h
    | exact PyErr.noConfusion (Except.error.inj h)

lemma cmpop_ne_unsupported {a b : Int} {s : CPUState} :
    cmpop a b s ≠ .error .unsupported := by
  unfold cmpop
  repeat' split
  all_goals intro h
  all_goals first
    | exact Except.noConfusion h
    | exact PyErr.noConfusion (Except.error.inj h)

lemma pyGet_fin8 {l : List Int} (h8 : l.length = 8) (a : Fin 8) :
    pyGet l (a : Int) = some (l.getD (a : Nat) 0) := by
  have h0 : (0 : Int) ≤ ((a : Nat) : Int) := Int.natCast_nonneg _
  have hlt : ((a : Nat) : Int) < (l.length : Int) := by
    rw [h8]
    exact_mod_cast a.isLt
  rw [pyGet_pos h0 hlt, Int.toNat_natCast]

/-! ### The claims -/

/-- Claim C8: at machine construction all 256 memory cells are 0, the
stack-pointer register `reg[7]` is `0xF4 = 244`, the other registers are 0,
the flags register is 0, the program counter is 0, and the halted flag is
false. -/
theorem C8_construction :
    initState.ram = List.replicate 256 0 ∧
    (∀ i : Fin 256, initState.ram.getD i 0 = 0) ∧
    initState.reg.getD 7 0 = 244 ∧
    (∀ i : Fin 8, (i : Nat) ≠ 7 → initState.reg.getD i 0 = 0) ∧
    initState.fl = 0 ∧ initState.pc = 0 ∧ initState.halted = false := by
  refine ⟨rfl, ?_, rfl, ?_, rfl, rfl, rfl⟩
  · intro i
    show (List.replicate 256 (0 : Int)).getD i 0 = 0
    rw [List.getD_eq_getElem?_getD, List.getElem?_replicate]
    simp [i.isLt]
  · intro i hi
    fin_cases i <;> first | rfl | exact absurd rfl hi

/-- Claim C9: running a machine whose memory holds only the HLT byte at
address 0 terminates after the first cycle (any remaining fuel returns the
same halted state), with every register, memory cell and the flags register
(and even the pc) unchanged. -/
theorem C9_hlt_only (n : Nat) :
    runFuel (n + 1) c9state = .ok c9halted ∧
    c9halted.halted = true ∧
    c9halted.ram = c9state.ram ∧ c9halted.reg = c9state.reg ∧
    c9halted.fl = c9state.fl ∧ c9halted.pc = c9state.pc := by
  have h1 : step c9state = .ok c9halted := rfl
  have hfix : ∀ m, runFuel m c9halted = .ok c9halted := by
    intro m
    cases m <;> rfl
  refine ⟨?_, rfl, rfl, rfl, rfl, rfl⟩
  show runFuel (n + 1) c9state = .ok c9halted
  unfold runFuel
  rw [if_neg (by decide), h1]
  exact hfix n

/-- Witness for C9_hlt_only: with fuel 3 the HLT-only machine ends halted in
one cycle. -/
theorem C9_witness : runFuel 3 c9state = .ok c9halted ∧ c9halted.halted = true :=
  ⟨(C9_hlt_only 2).1, (C9_hlt_only 2).2.1⟩

/-- Claim C6 is a latent code gap, not a property of the code: the reference
ALU never masks results to 8 bits.  At `reg = [200, 100, ...]` the ADD
operation stores the unmasked sum 300, which is not an 8-bit value. -/
theorem C6_add_unmasked :
    alu opADD 0 1 c6state = .ok c6res ∧
    c6res.reg.getD 0 0 = 300 ∧ ¬(c6res.reg.getD 0 0 ≤ 255) := by
  refine ⟨rfl, rfl, by decide⟩

/-- Counterexample to claim C7 as stated: ADD is a supported selector, yet
invoking the ALU with it and the out-of-range register index 8 raises an
error (Python `IndexError`), so "for every supported selector, no error is
raised" is false. -/
theorem C7_cex :
    opADD ∈ supportedOps ∧ alu opADD 8 0 initState = .error .indexError := by
  exact ⟨by decide, rfl⟩

/-- Claim C7, amended: an unrecognized selector makes the ALU fail with the
unsupported-operation error (aborting with no register or flags mutation: no
result state is produced), while a supported selector never raises the
unsupported-operation error — though it can still raise an index error for
an out-of-range register index. -/
theorem C7_amended (op : String) (a b : Int) (s : CPUState) :
    (op ∉ supportedOps → alu op a b s = .error .unsupported) ∧
    (op ∈ supportedOps → alu op a b s ≠ .error .unsupported) := by
  constructor
  · intro hnm
    simp only [supportedOps, List.mem_cons, List.not_mem_nil, or_false,
      not_or] at hnm
    obtain ⟨h1, h2, h3, h4, h5, h6, h7, h8⟩ := hnm
    unfold alu
    rw [if_neg h1, if_neg h2, if_neg h3, if_neg h4, if_neg h5, if_neg h6,
      if_neg h7, if_neg h8]
  · intro hm
    simp only [supportedOps, List.mem_cons, List.not_mem_nil, or_false] at hm
    rcases hm with h|h|h|h|h|h|h|h <;> subst h
    · rw [alu_opADD]; exact binop_ne_unsupported
    · rw [alu_opMUL]; exact binop_ne_unsupported
    · rw [alu_opCMP]; exact cmpop_ne_unsupported
    · rw [alu_opINC]; exact unop_ne_unsupported
    · rw [alu_opDEC]; exact unop_ne_unsupported
    · rw [alu_opAND]; exact binop_ne_unsupported
    · rw [alu_opOR]; exact binop_ne_unsupported
    · rw [alu_opNOT]; exact unop_ne_unsupported

/-- Witness for C7_amended: the selector "XOR" (whose arm is commented out in
the reference) aborts with the unsupported-operation error, while the
supported selector "ADD" with in-range indices does not raise it. -/
theorem C7_witness :
    alu opXOR 0 0 initState = .error .unsupported ∧
    alu opADD 0 0 initState ≠ .error .unsupported :=
  ⟨(C7_amended opXOR 0 0 initState).1 (by decide),
   (C7_amended opADD 0 0 initState).2 (by decide)⟩

/-- Counterexample to claim C10 as stated: with the undispatched opcode byte
255 fetched at address 254, the cycle is not error-free — the uniform
two-byte operand lookahead reads `ram[256]` and raises `IndexError`. -/
theorem C10_cex :
    pyGet c10bad.ram c10bad.pc = some 255 ∧
    (255 : Int) ∉ dispatchedOps ∧
    step c10bad = .error .indexError := by
  exact ⟨rfl, by decide, rfl⟩

/-- Claim C10, amended: in any cycle whose instruction fetch and two operand
fetches succeed and whose instruction byte matches none of the fifteen
dispatched opcodes, the cycle raises no error and changes no state at all,
so the loop re-executes on the identical state forever and the halted flag
never changes. -/
theorem C10_amended (s : CPUState) (ir oa ob : Int)
    (hir : pyGet s.ram s.pc = some ir)
    (ha : pyGet s.ram (s.pc + 1) = some oa)
    (hb : pyGet s.ram (s.pc + 2) = some ob)
    (hnd : ir ∉ dispatchedOps) :
    step s = .ok s ∧ (∀ n, runFuel n s = .ok s) ∧
    (∀ n s', runFuel n s = .ok s' → s'.halted = s.halted) := by
  simp only [dispatchedOps, List.mem_cons, List.not_mem_nil, or_false,
    not_or] at hnd
  obtain ⟨h1, h2, h3, h4, h5, h6, h7, h8, h9, h10, h11, h12, h13, h14, h15⟩ := hnd
  have hstep : step s = .ok s := by
    rw [step_eq_stepBody hir ha hb]
    unfold stepBody
    rw [if_neg h1, if_neg h2, if_neg h3, if_neg h4, if_neg h5, if_neg h6,
      if_neg h7, if_neg h8, if_neg h9, if_neg h10, if_neg h11, if_neg h12,
      if_neg h13, if_neg h14, if_neg h15]
  have hall : ∀ n, runFuel n s = .ok s := by
    intro n
    induction n with
    | zero => rfl
    | succ n ih =>
      unfold runFuel
      cases hh : s.halted with
      | true => rfl
      | false =>
        rw [hstep]
        exact ih
  exact ⟨hstep, hall, fun n s' h => by
    rw [hall n] at h
    rw [← Except.ok.inj h]⟩

/-- Witness for C10_amended: the undispatched byte 255 at address 0 leaves
the machine state fixed for any amount of fuel, never halted. -/
theorem C10_witness :
    step c10w = .ok c10w ∧ runFuel 5 c10w = .ok c10w ∧ c10w.halted = false := by
  obtain ⟨h1, h2, _⟩ := C10_amended c10w 255 0 0 rfl rfl rfl (by decide)
  exact ⟨h1, h2 5, rfl⟩

/-- Claim C1: in any cycle that fetches one of the dispatched opcodes whose
handler does not assign the program counter directly (LDI, PRN, MUL, ADD,
CMP, AND, OR, PUSH, POP) and that completes without raising, the program
counter afterwards equals its prior value plus `operand_count + 1`, where
`operand_count` is the fetched byte shifted right by 6. -/
theorem C1_pc_advance (s s' : CPUState) (ir : Int)
    (hir : pyGet s.ram s.pc = some ir)
    (hdisp : ir = LDI ∨ ir = PRN ∨ ir = MUL ∨ ir = ADD ∨ ir = CMP ∨
      ir = AND ∨ ir = OR ∨ ir = PUSH ∨ ir = POP)
    (hstep : step s = .ok s') :
    s'.pc = s.pc + pyShr ir 6 + 1 := by
  obtain ⟨ir', oa, ob, hf1, hf2, hf3⟩ := step_ok_fetch hstep
  have hii : ir' = ir := by
    rw [hir] at hf1
    exact (Option.some.inj hf1).symm
  subst hii
  rw [step_eq_stepBody hir hf2 hf3] at hstep
  rcases hdisp with h|h|h|h|h|h|h|h|h <;> subst h
  · rw [stepBody_LDI] at hstep
    exact hLDI_pc hstep
  · rw [stepBody_PRN] at hstep
    exact hPRN_pc hstep
  · rw [stepBody_MUL] at hstep
    exact hALU_pc hstep
  · rw [stepBody_ADD] at hstep
    exact hALU_pc hstep
  · rw [stepBody_CMP] at hstep
    exact hALU_pc hstep
  · rw [stepBody_AND] at hstep
    exact hALU_pc hstep
  · rw [stepBody_OR] at hstep
    exact hALU_pc hstep
  · rw [stepBody_PUSH] at hstep
    exact hPUSH_pc hstep
  · rw [stepBody_POP] at hstep
    exact hPOP_pc hstep

/-- Witness for C1_pc_advance: the `LDI 0 8` cycle advances the pc by
`(LDI >> 6) + 1 = 3`. -/
theorem C1_witness : c1wRes.pc = c1w.pc + pyShr LDI 6 + 1 :=
  C1_pc_advance c1w c1wRes LDI rfl (Or.inl rfl) rfl

/-- Claim C2: for any two register indices, the ALU CMP operation overwrites
the flags register with exactly one of the three one-hot values — 0b100 when
`reg[a] < reg[b]`, 0b010 when `reg[a] > reg[b]`, 0b001 when they are equal —
touching nothing else; in particular CMP of a register with itself always
sets exactly the equal bit. -/
theorem C2_cmp_flags (s : CPUState) (a b : Fin 8) (h8 : s.reg.length = 8) :
    ∃ s', alu opCMP (a : Int) (b : Int) s = .ok s' ∧
      s'.reg = s.reg ∧ s'.ram = s.ram ∧ s'.pc = s.pc ∧ s'.halted = s.halted ∧
      (s.reg.getD (a : Nat) 0 < s.reg.getD (b : Nat) 0 → s'.fl = 4) ∧
      (s.reg.getD (b : Nat) 0 < s.reg.getD (a : Nat) 0 → s'.fl = 2) ∧
      (s.reg.getD (a : Nat) 0 = s.reg.getD (b : Nat) 0 → s'.fl = 1) ∧
      (s'.fl = 4 ∨ s'.fl = 2 ∨ s'.fl = 1) ∧
      (a = b → s'.fl = 1) := by
  have ha := pyGet_fin8 h8 a
  have hb := pyGet_fin8 h8 b
  rw [alu_opCMP]
  unfold cmpop
  rw [ha, hb]
  refine ⟨_, rfl, rfl, rfl, rfl, rfl, ?_, ?_, ?_, ?_, ?_⟩
  · intro h
    show (if s.reg.getD (a : Nat) 0 < s.reg.getD (b : Nat) 0 then (4 : Int)
      else if s.reg.getD (a : Nat) 0 > s.reg.getD (b : Nat) 0 then 2 else 1) = 4
    rw [if_pos h]
  · intro h
    show (if s.reg.getD (a : Nat) 0 < s.reg.getD (b : Nat) 0 then (4 : Int)
      else if s.reg.getD (a : Nat) 0 > s.reg.getD (b : Nat) 0 then 2 else 1) = 2
    rw [if_neg (by omega), if_pos h]
  · intro h
    show (if s.reg.getD (a : Nat) 0 < s.reg.getD (b : Nat) 0 then (4 : Int)
      else if s.reg.getD (a : Nat) 0 > s.reg.getD (b : Nat) 0 then 2 else 1) = 1
    rw [if_neg (by omega), if_neg (by omega)]
  · show (if s.reg.getD (a : Nat) 0 < s.reg.getD (b : Nat) 0 then (4 : Int)
        else if s.reg.getD (a : Nat) 0 > s.reg.getD (b : Nat) 0 then 2 else 1) = 4 ∨
      (if s.reg.getD (a : Nat) 0 < s.reg.getD (b : Nat) 0 then (4 : Int)
        else if s.reg.getD (a : Nat) 0 > s.reg.getD (b : Nat) 0 then 2 else 1) = 2 ∨
      (if s.reg.getD (a : Nat) 0 < s.reg.getD (b : Nat) 0 then (4 : Int)
        else if s.reg.getD (a : Nat) 0 > s.reg.getD (b : Nat) 0 then 2 else 1) = 1
    split_ifs <;> norm_num
  · intro hab
    subst hab
    show (if s.reg.getD (a : Nat) 0 < s.reg.getD (a : Nat) 0 then (4 : Int)
      else if s.reg.getD (a : Nat) 0 > s.reg.getD (a : Nat) 0 then 2 else 1) = 1
    rw [if_neg (lt_irrefl _), if_neg (lt_irrefl _)]

/-- Witness for C2_cmp_flags: CMP of registers 0 and 1 of the freshly
constructed machine (both hold 0) yields flags = 1. -/
theorem C2_witness :
    initState.reg.length = 8 ∧
    ∃ s', alu opCMP ((0 : Fin 8) : Int) ((1 : Fin 8) : Int) initState = .ok s' ∧
      s'.fl = 1 := by
  obtain ⟨s', h1, _, _, _, _, _, _, heq, _, _⟩ := C2_cmp_flags initState 0 1 rfl
  exact ⟨rfl, s', h1, heq rfl⟩

/-- Claim C5: a JEQ cycle jumps to `reg[operand_a]` exactly when the flags
register equals the literal 1, otherwise it advances the pc normally; a JNE
cycle jumps exactly when the flags register differs from 1 (including the
initial all-zero flags state), otherwise it advances normally. -/
theorem C5_jeq_jne (s : CPUState) :
    (∀ s' oa, pyGet s.ram s.pc = some JEQ → pyGet s.ram (s.pc + 1) = some oa →
        step s = .ok s' →
        (s.fl = 1 → pyGet s.reg oa = some s'.pc) ∧
        (s.fl ≠ 1 → s'.pc = s.pc + pyShr JEQ 6 + 1)) ∧
    (∀ s' oa, pyGet s.ram s.pc = some JNE → pyGet s.ram (s.pc + 1) = some oa →
        step s = .ok s' →
        (s.fl ≠ 1 → pyGet s.reg oa = some s'.pc) ∧
        (s.fl = 1 → s'.pc = s.pc + pyShr JNE 6 + 1)) := by
  constructor
  · intro s' oa hir ha hstep
    obtain ⟨ir', oa', ob, hf1, hf2, hf3⟩ := step_ok_fetch hstep
    have hii : ir' = JEQ := by
      rw [hir] at hf1
      exact (Option.some.inj hf1).symm
    subst hii
    have hoo : oa' = oa := by
      rw [ha] at hf2
      exact (Option.some.inj hf2).symm
    subst hoo
    rw [step_eq_stepBody hir ha hf3, stepBody_JEQ] at hstep
    unfold hJEQ at hstep
    constructor
    · intro hfl
      rw [if_pos hfl] at hstep
      cases hg : pyGet s.reg oa' with
      | none =>
        rw [hg] at hstep
        exact Except.noConfusion hstep
      | some t =>
        rw [hg] at hstep
        have hs := Except.ok.inj hstep
        rw [← hs]
    · intro hfl
      rw [if_neg hfl] at hstep
      have hs := Except.ok.inj hstep
      rw [← hs]
  · intro s' oa hir ha hstep
    obtain ⟨ir', oa', ob, hf1, hf2, hf3⟩ := step_ok_fetch hstep
    have hii : ir' = JNE := by
      rw [hir] at hf1
      exact (Option.some.inj hf1).symm
    subst hii
    have hoo : oa' = oa := by
      rw [ha] at hf2
      exact (Option.some.inj hf2).symm
    subst hoo
    rw [step_eq_stepBody hir ha hf3, stepBody_JNE] at hstep
    unfold hJNE at hstep
    constructor
    · intro hfl
      rw [if_pos hfl] at hstep
      cases hg : pyGet s.reg oa' with
      | none =>
        rw [hg] at hstep
        exact Except.noConfusion hstep
      | some t =>
        rw [hg] at hstep
        have hs := Except.ok.inj hstep
        rw [← hs]
    · intro hfl
      rw [if_neg (by simp [hfl])] at hstep
      have hs := Except.ok.inj hstep
      rw [← hs]

/-- Witness for C5_jeq_jne: with flags = 1 the JEQ jumps to `reg[0] = 99`;
with the initial flags = 0 the JNE jumps to `reg[0] = 99`. -/
theorem C5_witness :
    pyGet c5jeqState.reg 0 = some c5jeqRes.pc ∧
    pyGet c5jneState.reg 0 = some c5jneRes.pc :=
  ⟨((C5_jeq_jne c5jeqState).1 c5jeqRes 0 rfl rfl rfl).1 rfl,
   ((C5_jeq_jne c5jneState).2 c5jneRes 0 rfl rfl rfl).1 (by decide)⟩

/-- Counterexample to claim C3 as stated: for r = 7 (the stack-pointer
register itself), PUSH 7 followed by POP 7 from the freshly constructed
machine leaves `reg[7] = 245`, not its original value 244 — the POP handler
re-reads `reg[SP]` after overwriting it and then increments it. -/
theorem C3_cex :
    pyGet c3cex.ram c3cex.pc = some PUSH ∧
    pyGet c3cex.ram (c3cex.pc + 1) = some 7 ∧
    step c3cex = .ok c3cex1 ∧
    pyGet c3cex1.ram c3cex1.pc = some POP ∧
    pyGet c3cex1.ram (c3cex1.pc + 1) = some 7 ∧
    step c3cex1 = .ok c3cex2 ∧
    pyGet c3cex2.reg 7 = some 245 ∧ pyGet c3cex.reg 7 = some 244 :=
  ⟨rfl, rfl, rfl, rfl, rfl, rfl, rfl, rfl⟩

/-- Claim C3, amended: for a register index r in 0..6 (any register other
than the stack pointer itself), a PUSH of r immediately followed by a POP
into r restores both `reg[r]` and the stack-pointer register `reg[7]` to
their pre-PUSH values. -/
theorem C3_amended (s s₁ s₂ : CPUState) (r : Int)
    (hr0 : 0 ≤ r) (hr6 : r ≤ 6) (h8 : s.reg.length = 8)
    (hpushi : pyGet s.ram s.pc = some PUSH)
    (hpusha : pyGet s.ram (s.pc + 1) = some r)
    (hs1 : step s = .ok s₁)
    (hpopi : pyGet s₁.ram s₁.pc = some POP)
    (hpopa : pyGet s₁.ram (s₁.pc + 1) = some r)
    (hs2 : step s₁ = .ok s₂) :
    pyGet s₂.reg r = pyGet s.reg r ∧ pyGet s₂.reg 7 = pyGet s.reg 7 := by
  have hrlt : r < (s.reg.length : Int) := by omega
  have h7lt : (7 : Int) < (s.reg.length : Int) := by omega
  have hgr : pyGet s.reg r = some (s.reg.getD r.toNat 0) := pyGet_pos hr0 hrlt
  have hg7 : pyGet s.reg 7 = some (s.reg.getD 7 0) := pyGet_pos (by norm_num) h7lt
  have hset7 : pySet s.reg 7 (s.reg.getD 7 0 - 1) =
      some (s.reg.set 7 (s.reg.getD 7 0 - 1)) :=
    pySet_pos _ (by norm_num) h7lt
  have hre7 : pyGet (s.reg.set 7 (s.reg.getD 7 0 - 1)) 7 =
      some (s.reg.getD 7 0 - 1) := pyGet_pySet_self hset7
  obtain ⟨ir1, oa1, ob1, hf1, hf2, hf3⟩ := step_ok_fetch hs1
  have hi1 : ir1 = PUSH := by
    rw [hpushi] at hf1
    exact (Option.some.inj hf1).symm
  subst hi1
  have ho1 : r = oa1 := by
    rw [hpusha] at hf2
    exact Option.some.inj hf2
  subst ho1
  rw [step_eq_stepBody hpushi hpusha hf3, stepBody_PUSH] at hs1
  unfold hPUSH at hs1
  simp only [SP, hgr, hg7, hset7, hre7] at hs1
  cases hram : pySet s.ram (s.reg.getD 7 0 - 1) (s.reg.getD r.toNat 0) with
  | none =>
    rw [hram] at hs1
    exact Except.noConfusion hs1
  | some ram1 =>
    simp only [hram] at hs1
    have hR := Except.ok.inj hs1
    subst hR
    have hval : pyGet ram1 (s.reg.getD 7 0 - 1) = some (s.reg.getD r.toNat 0) :=
      pyGet_pySet_self hram
    have hAlen : (s.reg.set 7 (s.reg.getD 7 0 - 1)).length = 8 := by
      rw [List.length_set]
      exact h8
    have hsetr : pySet (s.reg.set 7 (s.reg.getD 7 0 - 1)) r (s.reg.getD r.toNat 0) =
        some ((s.reg.set 7 (s.reg.getD 7 0 - 1)).set r.toNat (s.reg.getD r.toNat 0)) :=
      pySet_pos _ hr0 (by omega)
    have hiA : pyIdx (s.reg.set 7 (s.reg.getD 7 0 - 1)).length r = some r.toNat :=
      pyIdx_pos hr0 (by omega)
    have hjA : pyIdx (s.reg.set 7 (s.reg.getD 7 0 - 1)).length 7 = some 7 :=
      pyIdx_pos (by norm_num) (by omega)
    have hB7 : pyGet ((s.reg.set 7 (s.reg.getD 7 0 - 1)).set r.toNat
          (s.reg.getD r.toNat 0)) 7 = some (s.reg.getD 7 0 - 1) :=
      (pyGet_pySet_ne hsetr hiA hjA (by omega)).trans hre7
    have hBlen : ((s.reg.set 7 (s.reg.getD 7 0 - 1)).set r.toNat
        (s.reg.getD r.toNat 0)).length = 8 := by
      rw [List.length_set, List.length_set]
      exact h8
    have hsetB : pySet ((s.reg.set 7 (s.reg.getD 7 0 - 1)).set r.toNat
          (s.reg.getD r.toNat 0)) 7 (s.reg.getD 7 0 - 1 + 1) =
        some (((s.reg.set 7 (s.reg.getD 7 0 - 1)).set r.toNat
          (s.reg.getD r.toNat 0)).set 7 (s.reg.getD 7 0 - 1 + 1)) :=
      pySet_pos _ (by norm_num) (by omega)
    obtain ⟨ir2, oa2, ob2, hg1, hg2, hg3⟩ := step_ok_fetch hs2
    have hi2 : ir2 = POP := by
      rw [hpopi] at hg1
      exact (Option.some.inj hg1).symm
    subst hi2
    have ho2 : r = oa2 := by
      rw [hpopa] at hg2
      exact Option.some.inj hg2
    subst ho2
    rw [step_eq_stepBody hpopi hpopa hg3, stepBody_POP] at hs2
    unfold hPOP at hs2
    simp only [SP, hre7, hval, hsetr, hB7, hsetB] at hs2
    have hR2 := Except.ok.inj hs2
    subst hR2
    have hiB : pyIdx ((s.reg.set 7 (s.reg.getD 7 0 - 1)).set r.toNat
        (s.reg.getD r.toNat 0)).length r = some r.toNat :=
      pyIdx_pos hr0 (by omega)
    have hjB : pyIdx ((s.reg.set 7 (s.reg.getD 7 0 - 1)).set r.toNat
        (s.reg.getD r.toNat 0)).length 7 = some 7 :=
      pyIdx_pos (by norm_num) (by omega)
    constructor
    · show pyGet (((s.reg.set 7 (s.reg.getD 7 0 - 1)).set r.toNat
          (s.reg.getD r.toNat 0)).set 7 (s.reg.getD 7 0 - 1 + 1)) r =
        pyGet s.reg r
      rw [pyGet_pySet_ne hsetB hjB hiB (by omega), pyGet_pySet_self hsetr, hgr]
    · show pyGet (((s.reg.set 7 (s.reg.getD 7 0 - 1)).set r.toNat
          (s.reg.getD r.toNat 0)).set 7 (s.reg.getD 7 0 - 1 + 1)) 7 =
        pyGet s.reg 7
      rw [pyGet_pySet_self hsetB, hg7]
      have hspsum : s.reg.getD 7 0 - 1 + 1 = s.reg.getD 7 0 := by ring
      rw [hspsum]

/-- Witness for C3_amended: PUSH 0 then POP 0 on the fresh machine restores
`reg[0]` and the stack pointer. -/
theorem C3_witness :
    pyGet c3w2.reg 0 = pyGet c3w.reg 0 ∧ pyGet c3w2.reg 7 = pyGet c3w.reg 7 :=
  C3_amended c3w c3w1 c3w2 0 (by norm_num) (by norm_num) rfl rfl rfl rfl rfl rfl
    rfl

/-- Claim C4: a CALL at address pc pushes the return address pc + 2 and jumps
to `reg[operand_a]`; if the subroutine reaches a RET with the stack pointer
back at its post-CALL value and the pushed return-address cell intact, the
RET sets the program counter to pc + 2 and restores the stack-pointer
register to its pre-CALL value. -/
theorem C4_call_ret (s s₁ s₂ s₃ : CPUState) (spv : Int)
    (hcall : pyGet s.ram s.pc = some CALL)
    (hs1 : step s = .ok s₁)
    (hspv : pyGet s₁.reg 7 = some spv)
    (hsp2 : pyGet s₂.reg 7 = some spv)
    (hcell : pyGet s₂.ram spv = pyGet s₁.ram spv)
    (hret : pyGet s₂.ram s₂.pc = some RET)
    (hs3 : step s₂ = .ok s₃) :
    s₃.pc = s.pc + 2 ∧ pyGet s₃.reg 7 = pyGet s.reg 7 := by
  obtain ⟨ir1, oa1, ob1, hf1, hf2, hf3⟩ := step_ok_fetch hs1
  have hi1 : ir1 = CALL := by
    rw [hcall] at hf1
    exact (Option.some.inj hf1).symm
  subst hi1
  rw [step_eq_stepBody hcall hf2 hf3, stepBody_CALL] at hs1
  unfold hCALL at hs1
  simp only [SP] at hs1
  cases hsp0 : pyGet s.reg 7 with
  | none =>
    rw [hsp0] at hs1
    exact Except.noConfusion hs1
  | some sp0 =>
    simp only [hsp0] at hs1
    cases hr1 : pySet s.reg 7 (sp0 - 1) with
    | none =>
      rw [hr1] at hs1
      exact Except.noConfusion hs1
    | some reg1 =>
      simp only [hr1] at hs1
      have hreg17 : pyGet reg1 7 = some (sp0 - 1) := pyGet_pySet_self hr1
      simp only [hreg17] at hs1
      cases hram : pySet s.ram (sp0 - 1) (s.pc + 2) with
      | none =>
        rw [hram] at hs1
        exact Except.noConfusion hs1
      | some ram1 =>
        simp only [hram] at hs1
        cases ht : pyGet reg1 oa1 with
        | none =>
          rw [ht] at hs1
          exact Except.noConfusion hs1
        | some t =>
          simp only [ht] at hs1
          have hR := Except.ok.inj hs1
          subst hR
          have hspv' : spv = sp0 - 1 := by
            have h : pyGet reg1 7 = some spv := hspv
            rw [hreg17] at h
            exact (Option.some.inj h).symm
          subst hspv'
          have hcell' : pyGet s₂.ram (sp0 - 1) = some (s.pc + 2) := by
            have hv : pyGet ram1 (sp0 - 1) = some (s.pc + 2) := pyGet_pySet_self hram
            have hc : pyGet s₂.ram (sp0 - 1) = pyGet ram1 (sp0 - 1) := hcell
            rw [hc, hv]
          obtain ⟨ir2, oa2, ob2, hg1, hg2, hg3⟩ := step_ok_fetch hs3
          have hi2 : ir2 = RET := by
            rw [hret] at hg1
            exact (Option.some.inj hg1).symm
          subst hi2
          rw [step_eq_stepBody hret hg2 hg3, stepBody_RET] at hs3
          unfold hRET at hs3
          simp only [SP, hsp2, hcell'] at hs3
          cases hr2 : pySet s₂.reg 7 (sp0 - 1 + 1) with
          | none =>
            rw [hr2] at hs3
            exact Except.noConfusion hs3
          | some reg2 =>
            simp only [hr2] at hs3
            have hR3 := Except.ok.inj hs3
            subst hR3
            constructor
            · rfl
            · show pyGet reg2 7 = some sp0
              rw [pyGet_pySet_self hr2]
              have hspsum : sp0 - 1 + 1 = sp0 := by ring
              rw [hspsum]

/-- Witness for C4_call_ret: `CALL 0` with `reg[0] = 3` jumping to a RET at
address 3 returns the pc to 2 and the stack pointer to 244. -/
theorem C4_witness : c4w3.pc = c4w.pc + 2 ∧ pyGet c4w3.reg 7 = pyGet c4w.reg 7 :=
  C4_call_ret c4w c4w1 c4w1 c4w3 243 rfl rfl rfl rfl rfl rfl rfl

end LS8
